import Mathlib

/-!
Shallow embedding of `src/test-websocket-client.py`, a Socket.IO diagnostic
client: it reads an optional conversation id from the command line, connects
to a fixed local server, emits one `join:conversation` event on the
library-level connected callback, registers nine print-only event handlers,
sleeps until interrupted, and exits.

Payload renderings and terminal output are modelled as `List Char` (the exact
characters written to standard output); each Python `print(s)` contributes
`s ++ "\n"`.  The process as a whole is a function of the environment: the
argument vector, the outcome of the single connection attempt, the inbound
events delivered while connected, and how the infinite sleep loop ends
(keyboard interrupt or another exception).
-/

namespace WSClient

/-- Output of one Python `print(s)`: the characters of `s` followed by a
line feed. -/
def pline (s : String) : List Char := s.data ++ ['\n']

/-- Output of one Python `print(f"<pre><data>")`: a fixed prefix, the payload
rendering, and the trailing line feed added by `print`. -/
def printData (pre : String) (data : List Char) : List Char :=
  pre.data ++ data ++ ['\n']

/-- The module-level globals the registered callbacks close over:
`CONVERSATION_ID` and the session id `sio.sid` assigned on connect. -/
structure Globals where
  conversationId : List Char
  sid : List Char

/-- Payload of the single outbound emission, the Python dict
`{'conversationId': CONVERSATION_ID, 'username': 'python-test-client'}`. -/
structure JoinPayload where
  conversationId : List Char
  username : List Char
  deriving DecidableEq

/-- One outbound `sio.emit(event, payload)` call. -/
structure Emission where
  event : String
  payload : JoinPayload
  deriving DecidableEq

/-- `CONVERSATION_ID = sys.argv[1] if len(sys.argv) > 1 else '42327374-...'`.
`argv` is the full `sys.argv`, program name included. -/
def CONVERSATION_ID (argv : List String) : List Char :=
  if h : 1 < argv.length then (argv.get ⟨1, h⟩).data
  else "42327374-aef7-4b04-81b9-0e54ce42a44e".data

/-- The three banner prints executed at module top level, before the
connection attempt. -/
def header (cid : List Char) : List Char :=
  pline "🔌 Connecting to WebSocket server..." ++
    pline "   URL: http://localhost:3000" ++
    printData "   Conversation ID: " cid ++ ['\n']

/-- The library-level connected callback `connect()`: prints a confirmation
with the session id, prints the join notice, and emits the single
`join:conversation` event.  Returns its output and its emissions. -/
def connect (g : Globals) : List Char × List Emission :=
  (pline "✅ Connected to server" ++
     (printData "   Socket ID: " g.sid ++ ['\n']) ++
     printData "📬 Joining conversation: " g.conversationId,
   [⟨"join:conversation", ⟨g.conversationId, "python-test-client".data⟩⟩])

/-- The library-level disconnected callback `disconnect()`: only prints. -/
def disconnect (g : Globals) : List Char :=
  pline "❌ Disconnected from server"

/-- Handler for the `joined` event. -/
def joined (g : Globals) (data : List Char) : List Char :=
  pline "✅ Successfully joined conversation" ++
    printData "   Data: " data ++
    pline "\n👂 Listening for events...\n"

/-- Handler for `agent:spawned`. -/
def on_agent_spawned (g : Globals) (data : List Char) : List Char :=
  pline "🤖 Agent Spawned:" ++ printData "   " data

/-- Handler for `agent:status`. -/
def on_agent_status (g : Globals) (data : List Char) : List Char :=
  pline "📊 Agent Status:" ++ printData "   " data

/-- Handler for `agent:message`. -/
def on_agent_message (g : Globals) (data : List Char) : List Char :=
  pline "💬 Agent Message:" ++ printData "   " data

/-- Handler for `task:created`. -/
def on_task_created (g : Globals) (data : List Char) : List Char :=
  pline "📝 Task Created:" ++ printData "   " data

/-- Handler for `task:updated`. -/
def on_task_updated (g : Globals) (data : List Char) : List Char :=
  pline "🔄 Task Updated:" ++ printData "   " data

/-- Handler for `query:progress`. -/
def on_query_progress (g : Globals) (data : List Char) : List Char :=
  pline "⏳ Query Progress:" ++ printData "   " data

/-- Handler for `query:completed`. -/
def on_query_completed (g : Globals) (data : List Char) : List Char :=
  pline "✅ Query Completed:" ++ printData "   " data

/-- Handler for the inbound `error` event. -/
def on_error (g : Globals) (data : List Char) : List Char :=
  pline "❌ Error:" ++ printData "   " data

/-- The handler registration table built by the `@sio.event` / `@sio.on`
decorators: the nine payload-taking event names and their handlers.  The
lifecycle callbacks `connect` and `disconnect` are kept separate, as the
library treats them specially. -/
def handlers : List (String × (Globals → List Char → List Char)) :=
  [("joined", joined),
   ("agent:spawned", on_agent_spawned),
   ("agent:status", on_agent_status),
   ("agent:message", on_agent_message),
   ("task:created", on_task_created),
   ("task:updated", on_task_updated),
   ("query:progress", on_query_progress),
   ("query:completed", on_query_completed),
   ("error", on_error)]

/-- The nine recognized inbound event names, in registration order. -/
def recognizedEvents : List String :=
  ["joined", "agent:spawned", "agent:status", "agent:message",
   "task:created", "task:updated", "query:progress", "query:completed",
   "error"]

/-- Delivery of one named inbound event: the library invokes the registered
handler for that name, if any; the client registers no catch-all handler, so
an unregistered name produces nothing. -/
def dispatchEvent (g : Globals) (e : String) (d : List Char) : List Char :=
  match handlers.lookup e with
  | some h => h g d
  | none => []

/-- Outcome of the single `sio.connect('http://localhost:3000')` call:
either an exception with a message, or success with a server-assigned
session id. -/
inductive ConnectOutcome where
  | failure (msg : List Char)
  | success (sid : List Char)

/-- How the infinite `while True: time.sleep(1)` loop ends: only an
exception can end it — a keyboard interrupt or some other exception. -/
inductive RunEnd where
  | interrupt
  | exc (msg : List Char)

/-- Observable result of one process run. -/
structure RunResult where
  output : List Char
  emissions : List Emission
  disconnectCalls : Nat
  connectAttempts : Nat
  exitCode : Nat

/-- The whole script as a function of its environment: `argv` is `sys.argv`,
`oc` the outcome of the one connection attempt, `events` the inbound events
delivered while connected, `ending` how the sleep loop ends.  Mirrors the
module-level `try/except KeyboardInterrupt/except Exception` structure:
a connect exception (raised before the connected callback ever runs) is
printed and the process exits 1 with nothing emitted; on success the
connected callback prints and emits, the loop runs until a keyboard
interrupt (graceful `sio.disconnect()`, exit 0) or another exception
(printed, exit 1). -/
def run (argv : List String) (oc : ConnectOutcome)
    (events : List (String × List Char)) (ending : RunEnd) : RunResult :=
  let cid := CONVERSATION_ID argv
  match oc with
  | .failure msg =>
      { output := header cid ++ printData "❌ Error: " msg
        emissions := []
        disconnectCalls := 0
        connectAttempts := 1
        exitCode := 1 }
  | .success sid =>
      let g : Globals := ⟨cid, sid⟩
      let c := connect g
      let evOut := (events.map (fun p => dispatchEvent g p.1 p.2)).flatten
      match ending with
      | .interrupt =>
          { output := header cid ++ c.1 ++ pline "Press Ctrl+C to exit\n" ++
              evOut ++ pline "\n\n👋 Disconnecting..." ++ disconnect g
            emissions := c.2
            disconnectCalls := 1
            connectAttempts := 1
            exitCode := 0 }
      | .exc msg =>
          { output := header cid ++ c.1 ++ pline "Press Ctrl+C to exit\n" ++
              evOut ++ printData "❌ Error: " msg
            emissions := c.2
            disconnectCalls := 0
            connectAttempts := 1
            exitCode := 1 }

/-- Decomposition of a stream of output characters into lines: splits at
every line feed.  A terminal line feed yields a trailing empty fragment. -/
def splitLines : List Char → List (List Char)
  | [] => [[]]
  | c :: cs =>
      if c = '\n' then [] :: splitLines cs
      else
        match splitLines cs with
        | [] => [[c]]
        | l :: ls => (c :: l) :: ls

/-- Specification of one print-only handler: delivering a line-feed-free
payload whose rendering avoids the label's leading character produces output
with exactly one line containing the handler's fixed label and with some
line containing the payload rendering.  `hd` is the label's leading
character, used to separate the payload from the label. -/
def handlerSpec (e lab : String) (hd : Char) : Prop :=
  ∀ (g : Globals) (d : List Char), '\n' ∉ d → hd ∉ d →
    (splitLines (dispatchEvent g e d)).countP
        (fun l => decide (lab.data <:+: l)) = 1 ∧
      ∃ l, l ∈ splitLines (dispatchEvent g e d) ∧ d <:+: l

/-- Sample globals value, used to instantiate universally quantified
results at a concrete input. -/
def gEx : Globals :=
  ⟨"42327374-aef7-4b04-81b9-0e54ce42a44e".data, "abc123".data⟩

theorem splitLines_nil : splitLines [] = [[]] := rfl

theorem splitLines_cons_newline (b : List Char) :
    splitLines ('\n' :: b) = [] :: splitLines b := by
  simp [splitLines]

theorem splitLines_newline_append (a b : List Char) (h : '\n' ∉ a) :
    splitLines (a ++ '\n' :: b) = a :: splitLines b := by
  induction a with
  | nil => simp [splitLines]
  | cons c a ih =>
    rw [List.mem_cons, not_or] at h
    have hc : ¬ c = '\n' := fun hh => h.1 hh.symm
    rw [List.cons_append]
    simp only [splitLines, if_neg hc, ih h.2]

theorem not_mem_append_chars {c : Char} {a b : List Char}
    (ha : c ∉ a) (hb : c ∉ b) : c ∉ a ++ b := by
  rw [List.mem_append, not_or]; exact ⟨ha, hb⟩

theorem not_infix_of_head {c : Char} {lab s : List Char}
    (hc : c ∈ lab) (hs : c ∉ s) : ¬ lab <:+: s :=
  fun h => hs (h.subset hc)

theorem handlerSpec_std (e lab : String) (hd : Char)
    (heq : ∀ g d, dispatchEvent g e d = pline lab ++ printData "   " d)
    (hmem : hd ∈ lab.data) (hnl : '\n' ∉ lab.data) (hne : lab.data ≠ [])
    (hind : hd ∉ "   ".data) :
    handlerSpec e lab hd := by
  intro g d hdnl hdhd
  have hsplit : splitLines (dispatchEvent g e d) =
      [lab.data, "   ".data ++ d, []] := by
    rw [heq]
    have e1 : pline lab ++ printData "   " d =
        lab.data ++ '\n' :: (("   ".data ++ d) ++ '\n' :: []) := by
      simp [pline, printData]
    rw [e1, splitLines_newline_append _ _ hnl,
        splitLines_newline_append _ _ (not_mem_append_chars (by decide) hdnl)]
    rfl
  refine ⟨?_, "   ".data ++ d, ?_, ?_⟩
  · have b1 : decide (lab.data <:+: lab.data) = true :=
      decide_eq_true (List.infix_refl _)
    have b2 : decide (lab.data <:+: "   ".data ++ d) = false :=
      decide_eq_false (not_infix_of_head hmem (not_mem_append_chars hind hdhd))
    have b3 : decide (lab.data <:+: ([] : List Char)) = false :=
      decide_eq_false (fun h => hne (List.infix_nil.mp h))
    simp only [hsplit, List.countP_cons, List.countP_nil, b1, b2, b3]
    simp
  · rw [hsplit]; simp
  · exact (List.suffix_append _ _).isInfix

theorem handlerSpec_joined :
    handlerSpec "joined" "✅ Successfully joined conversation" '✅' := by
  intro g d hdnl hdhd
  have heq : dispatchEvent g "joined" d =
      "✅ Successfully joined conversation".data ++ '\n' ::
        (("   Data: ".data ++ d) ++ '\n' :: ('\n' ::
          ("👂 Listening for events...".data ++ '\n' :: ('\n' :: [])))) := by
    show joined g d = _
    simp [joined, pline, printData]
  have hsplit : splitLines (dispatchEvent g "joined" d) =
      ["✅ Successfully joined conversation".data, "   Data: ".data ++ d, [],
       "👂 Listening for events...".data, [], []] := by
    rw [heq, splitLines_newline_append _ _ (by decide),
        splitLines_newline_append _ _ (not_mem_append_chars (by decide) hdnl),
        splitLines_cons_newline,
        splitLines_newline_append _ _ (by decide),
        splitLines_cons_newline, splitLines_nil]
  refine ⟨?_, "   Data: ".data ++ d, ?_, ?_⟩
  · have b1 : decide ("✅ Successfully joined conversation".data <:+:
        "✅ Successfully joined conversation".data) = true :=
      decide_eq_true (List.infix_refl _)
    have b2 : decide ("✅ Successfully joined conversation".data <:+:
        "   Data: ".data ++ d) = false :=
      decide_eq_false (not_infix_of_head (by decide)
        (not_mem_append_chars (c := '✅') (by decide) hdhd))
    have b3 : decide ("✅ Successfully joined conversation".data <:+:
        ([] : List Char)) = false :=
      decide_eq_false (fun h => by simpa using List.infix_nil.mp h)
    have b4 : decide ("✅ Successfully joined conversation".data <:+:
        "👂 Listening for events...".data) = false :=
      decide_eq_false (not_infix_of_head (c := '✅') (by decide) (by decide))
    simp only [hsplit, List.countP_cons, List.countP_nil, b1, b2, b3, b4]
    simp
  · rw [hsplit]; simp
  · exact (List.suffix_append _ _).isInfix

theorem handlers_keys : handlers.map Prod.fst = recognizedEvents := rfl

theorem lookup_eq_none_of_not_mem_keys {α β : Type} [BEq α] [LawfulBEq α]
    (l : List (α × β)) (a : α) (h : a ∉ l.map Prod.fst) : l.lookup a = none := by
  induction l with
  | nil => rfl
  | cons p t ih =>
    obtain ⟨k, b⟩ := p
    rw [List.map_cons, List.mem_cons, not_or] at h
    have hb : (a == k) = false := beq_eq_false_iff_ne.mpr h.1
    rw [List.lookup_cons, hb]
    exact ih h.2

/-- C1: after a successful connection, the connected callback emits exactly
one `join:conversation` event, whose payload has `conversationId` equal to
`CONVERSATION_ID` (first CLI argument or the literal default) and `username`
equal to `python-test-client`; in every run, every outbound emission is that
one event, so nothing else is ever emitted. -/
theorem C1_single_join_emission (argv : List String) (sid : List Char)
    (events : List (String × List Char)) (ending : RunEnd) :
    (run argv (.success sid) events ending).emissions =
      [⟨"join:conversation", ⟨CONVERSATION_ID argv, "python-test-client".data⟩⟩] ∧
    ∀ (oc : ConnectOutcome) (em : Emission),
      em ∈ (run argv oc events ending).emissions →
      em = ⟨"join:conversation", ⟨CONVERSATION_ID argv, "python-test-client".data⟩⟩ := by
  constructor
  · cases ending <;> rfl
  · intro oc em hmem
    cases oc with
    | failure msg =>
      cases ending <;> exact absurd hmem (List.not_mem_nil em)
    | success sid2 =>
      cases ending <;> exact List.mem_singleton.mp hmem

/-- C1 witness: a concrete successful run emits exactly the join event with
the CLI-supplied conversation id. -/
theorem C1_witness :
    (run ["prog", "abc"] (.success "S1".data)
        [("joined", "d".data)] .interrupt).emissions =
      [⟨"join:conversation", ⟨"abc".data, "python-test-client".data⟩⟩] := by
  have h := C1_single_join_emission ["prog", "abc"] "S1".data
    [("joined", "d".data)] .interrupt
  rw [h.1]
  rfl

/-- C2: the nine registered event names are pairwise distinct (so delivering
one recognized event invokes exactly its own handler and no other), and each
handler, on a payload whose rendering is line-feed-free and avoids the
label's leading character, prints exactly one line containing its fixed
label and some line containing the payload rendering. -/
theorem C2_nine_handlers :
    (handlers.map Prod.fst).Nodup ∧
    handlerSpec "joined" "✅ Successfully joined conversation" '✅' ∧
    handlerSpec "agent:spawned" "🤖 Agent Spawned:" '🤖' ∧
    handlerSpec "agent:status" "📊 Agent Status:" '📊' ∧
    handlerSpec "agent:message" "💬 Agent Message:" '💬' ∧
    handlerSpec "task:created" "📝 Task Created:" '📝' ∧
    handlerSpec "task:updated" "🔄 Task Updated:" '🔄' ∧
    handlerSpec "query:progress" "⏳ Query Progress:" '⏳' ∧
    handlerSpec "query:completed" "✅ Query Completed:" '✅' ∧
    handlerSpec "error" "❌ Error:" '❌' := by
  refine ⟨by decide, handlerSpec_joined, ?_, ?_, ?_, ?_, ?_, ?_, ?_, ?_⟩
  all_goals
    exact handlerSpec_std _ _ _ (fun g d => rfl)
      (by decide) (by decide) (by decide) (by decide)

/-- C2 witness: the `agent:spawned` handler on the concrete payload `hello`
prints exactly one line containing its label. -/
theorem C2_witness :
    (splitLines (dispatchEvent gEx "agent:spawned" "hello".data)).countP
      (fun l => decide ("🤖 Agent Spawned:".data <:+: l)) = 1 :=
  (C2_nine_handlers.2.2.1 gEx "hello".data (by decide) (by decide)).1

/-- C3: when the connection attempt raises, the process exits with code 1,
never emits anything, and its output is the banner followed by the printed
error line. -/
theorem C3_connect_failure (argv : List String) (msg : List Char)
    (events : List (String × List Char)) (ending : RunEnd) :
    (run argv (.failure msg) events ending).exitCode = 1 ∧
    (run argv (.failure msg) events ending).emissions = [] ∧
    (run argv (.failure msg) events ending).output =
      header (CONVERSATION_ID argv) ++ printData "❌ Error: " msg :=
  ⟨rfl, rfl, rfl⟩

/-- C4: a keyboard interrupt delivered while connected and in the main loop
calls `sio.disconnect()` exactly once and the process exits with code 0. -/
theorem C4_interrupt_disconnects (argv : List String) (sid : List Char)
    (events : List (String × List Char)) :
    (run argv (.success sid) events .interrupt).disconnectCalls = 1 ∧
    (run argv (.success sid) events .interrupt).exitCode = 0 :=
  ⟨rfl, rfl⟩

/-- C5: delivering an event whose name is not among the nine recognized
names produces no output: no catch-all handler is registered, so the lookup
fails and nothing runs. -/
theorem C5_unrecognized_silent (g : Globals) (e : String) (d : List Char)
    (h : e ∉ recognizedEvents) : dispatchEvent g e d = [] := by
  have hnone : handlers.lookup e = none :=
    lookup_eq_none_of_not_mem_keys handlers e
      (by rw [handlers_keys]; exact h)
  simp [dispatchEvent, hnone]

/-- C5 witness: the unregistered event name `unknown` produces no output. -/
theorem C5_witness : dispatchEvent gEx "unknown" "x".data = [] :=
  C5_unrecognized_silent gEx "unknown" "x".data (by decide)

/-- C6: with at most one entry in `sys.argv` (no CLI argument after the
program name), the join payload carries the literal default conversation id
verbatim. -/
theorem C6_default_conversation_id (argv : List String) (h : argv.length ≤ 1)
    (sid : List Char) (events : List (String × List Char)) (ending : RunEnd) :
    (run argv (.success sid) events ending).emissions =
      [⟨"join:conversation",
        ⟨"42327374-aef7-4b04-81b9-0e54ce42a44e".data,
         "python-test-client".data⟩⟩] := by
  have hcid : CONVERSATION_ID argv =
      "42327374-aef7-4b04-81b9-0e54ce42a44e".data := by
    rw [CONVERSATION_ID, dif_neg (by omega)]
  cases ending <;> simp [run, connect, hcid]

/-- C6 witness: a run with only the program name in `sys.argv` emits the
default conversation id. -/
theorem C6_witness :
    (run ["prog"] (.success "S1".data) [] .interrupt).emissions =
      [⟨"join:conversation",
        ⟨"42327374-aef7-4b04-81b9-0e54ce42a44e".data,
         "python-test-client".data⟩⟩] :=
  C6_default_conversation_id ["prog"] (by decide) "S1".data [] .interrupt

/-- C7: an inbound `error` event only prints its payload like any other
event: removing all `error` events from a run changes neither the exit code
nor the number of disconnect calls nor the emissions. -/
theorem C7_error_event_prints_only (argv : List String) (sid : List Char)
    (events : List (String × List Char)) (ending : RunEnd) :
    (∀ (g : Globals) (d : List Char),
      dispatchEvent g "error" d = pline "❌ Error:" ++ printData "   " d) ∧
    (run argv (.success sid) events ending).exitCode =
      (run argv (.success sid)
        (events.filter (fun p => p.1 != "error")) ending).exitCode ∧
    (run argv (.success sid) events ending).disconnectCalls =
      (run argv (.success sid)
        (events.filter (fun p => p.1 != "error")) ending).disconnectCalls ∧
    (run argv (.success sid) events ending).emissions =
      (run argv (.success sid)
        (events.filter (fun p => p.1 != "error")) ending).emissions := by
  refine ⟨fun g d => rfl, ?_, ?_, ?_⟩ <;> cases ending <;> rfl

/-- C8: every run makes at most one connection attempt: the single
`sio.connect` call sits in straight-line code with no reconnection path. -/
theorem C8_at_most_one_connection (argv : List String) (oc : ConnectOutcome)
    (events : List (String × List Char)) (ending : RunEnd) :
    (run argv oc events ending).connectAttempts ≤ 1 := by
  cases oc <;> cases ending <;> exact Nat.le_refl 1

/-- C9: command-line arguments beyond the first are ignored: with two or
more entries after the program name, the whole run result is unchanged by
replacing everything after the first argument, and the join payload carries
exactly that first argument. -/
theorem C9_extra_args_ignored (p a : String) (rest rest' : List String)
    (oc : ConnectOutcome) (events : List (String × List Char))
    (ending : RunEnd) :
    run (p :: a :: rest) oc events ending =
      run (p :: a :: rest') oc events ending ∧
    ∀ sid : List Char,
      (run (p :: a :: rest) (.success sid) events ending).emissions =
        [⟨"join:conversation", ⟨a.data, "python-test-client".data⟩⟩] := by
  have hcid : ∀ r : List String, CONVERSATION_ID (p :: a :: r) = a.data := by
    intro r
    rw [CONVERSATION_ID,
      dif_pos (show 1 < (p :: a :: r).length by
        simp only [List.length_cons]; omega)]
    rfl
  constructor
  · cases oc <;> cases ending <;> simp [run, hcid]
  · intro sid
    cases ending <;> simp [run, connect, hcid]

/-- C10: each recognized handler is deterministic in its payload and
depends on nothing else: two invocations with equal payload renderings
produce identical output even under different globals. -/
theorem C10_handler_determinism (e : String) (he : e ∈ recognizedEvents)
    (g g' : Globals) (d d' : List Char) (hd : d = d') :
    dispatchEvent g e d = dispatchEvent g' e d' := by
  subst hd
  simp only [recognizedEvents, List.mem_cons, List.mem_singleton,
    List.not_mem_nil, or_false] at he
  rcases he with rfl | rfl | rfl | rfl | rfl | rfl | rfl | rfl | rfl <;> rfl

/-- C10 witness: the `agent:status` handler prints the same text under two
different globals. -/
theorem C10_witness :
    dispatchEvent gEx "agent:status" "x".data =
      dispatchEvent ⟨[], []⟩ "agent:status" "x".data :=
  C10_handler_determinism "agent:status" (by decide) gEx ⟨[], []⟩
    "x".data "x".data rfl

end WSClient
